import Mathlib

/-!
Shallow embedding of the invoice saga (billing service), the inventory
compensation handler (inventory service) and the distributed customer
deletion coordinator (account service) of the microservices_dapr
repository, together with theorems settling the specification claims.

Each definition is translated from a concrete Python function of the
source tree; the comment above each one names the function it embeds.
Persisted rows become Lean structures, event handlers become pure
functions from the affected row (plus the event's fields) to the updated
row and a list of outbound effects (published events, scheduled timers,
notifications).  Python truthiness on optional values is modelled
explicitly.
-/

namespace Billing

/-- `InvoiceStatus` enum from `billing_service/app/models/invoice.py`. -/
inductive InvoiceStatus where
  | pending
  | processing
  | payment_processing
  | completed
  | failed
  | cancelled
deriving DecidableEq, Repr

/-- Terminal statuses per the saga state machine. -/
def InvoiceStatus.isTerminal : InvoiceStatus → Bool
  | .completed => true
  | .failed => true
  | .cancelled => true
  | _ => false

/-- The persisted invoice row (`models/invoice.py` plus the columns added by
`migration.py`: `customer_status`, `inventory_status`, `payment_status`; the
`customer_id` column assigned in `InvoiceService.create_invoice`).
Monetary amounts are modelled as exact rationals. -/
structure Invoice where
  id : Nat
  invoice_number : String
  customer_id : String
  customer_email : String
  product_id : String
  quantity : Nat
  unit_price : Option ℚ
  total_amount : Option ℚ
  status : InvoiceStatus
  notes : Option String
  customer_status : Option String
  inventory_status : Option String
  payment_status : Option String
deriving DecidableEq, Repr

/-- Python truthiness of an optional numeric value (`if unit_price:`):
`None` and `0.0` are falsy. -/
def truthyPrice : Option ℚ → Bool
  | none => false
  | some p => p ≠ 0

/-- Python truthiness of an optional string (`if notes:`): `None` and the
empty string are falsy. -/
def truthyStr : Option String → Bool
  | none => false
  | some s => s ≠ ""

/-- `InvoiceService.update_invoice_status` (invoice_service.py, lines
150-169), for an invoice that exists: unconditionally overwrites `status`;
sets `unit_price` and `total_amount = unit_price * quantity` only when
`unit_price` is truthy; overwrites `notes` only when truthy.  There is no
terminal-state guard in the source. -/
def update_invoice_status (inv : Invoice) (status : InvoiceStatus)
    (unit_price : Option ℚ) (notes : Option String) : Invoice :=
  { inv with
    status := status
    unit_price := if truthyPrice unit_price then unit_price else inv.unit_price
    total_amount := if truthyPrice unit_price then
        unit_price.map (fun p => p * (inv.quantity : ℚ))
      else inv.total_amount
    notes := if truthyStr notes then notes else inv.notes }

/-- `InvoiceService.update_payment_status`: overwrites only the
`payment_status` column. -/
def update_payment_status (inv : Invoice) (s : String) : Invoice :=
  { inv with payment_status := some s }

/-- `InvoiceService.update_inventory_status`: overwrites only the
`inventory_status` column. -/
def update_inventory_status (inv : Invoice) (s : String) : Invoice :=
  { inv with inventory_status := some s }

/-- `InvoiceService.update_customer_status`: overwrites only the
`customer_status` column. -/
def update_customer_status (inv : Invoice) (s : String) : Invoice :=
  { inv with customer_status := some s }

/-- Outbound effects of the billing handlers: events published through the
bus, the fire-and-forget payment-timeout task, and e-mail notifications. -/
inductive Action where
  | publishPaymentRequest (invoiceId : Nat) (amount : ℚ)
      (customerId : String) (productId : String)
  | schedulePaymentTimeout (invoiceId : Nat) (seconds : Nat)
  | publishCompensation (invoiceId : Nat) (productId : String)
      (quantity : Nat) (reason : String)
  | sendNotification (invoiceId : Nat) (kind : String)
deriving DecidableEq, Repr

/-- `handle_payment_request_failure` (main.py, lines 413-439): publishes a
`compensate-inventory` event with the hard-coded quantity `1` (the source
comment reads "Asumiendo cantidad 1"), then sets the invoice status to
CANCELLED with a note. -/
def handle_payment_request_failure (inv : Invoice) (product_id : String)
    (reason : String) : Invoice × List Action :=
  (update_invoice_status inv .cancelled none
      (some ("Payment request failed: " ++ reason ++ ". Inventory compensation triggered.")),
   [.publishCompensation inv.id product_id 1 ("Payment request failed: " ++ reason)])

/-- `request_payment_processing` (main.py, lines 313-361): sets
`payment_status`, unconditionally starts the 60-second payment-timeout
task, then publishes `payment-request`; on a failed publish it falls into
`handle_payment_request_failure`.  `publishOk` models the broker's
acknowledgement (status 204 and no exception). -/
def request_payment_processing (inv : Invoice) (amount : ℚ)
    (publishOk : Bool) : Invoice × List Action :=
  let inv1 := update_payment_status inv "Payment processing initiated"
  if publishOk then
    (inv1, [.schedulePaymentTimeout inv.id 60,
            .publishPaymentRequest inv.id amount inv.customer_id inv.product_id])
  else
    let fr := handle_payment_request_failure inv1 inv.product_id
        "Failed to send payment request"
    (fr.1, .schedulePaymentTimeout inv.id 60 :: fr.2)

/-- The `inventory_status` narrative written by `handle_inventory_response`. -/
def inventoryStatusMsg (available : Bool) (message : String) : String :=
  if available then "Inventory available: " ++ message
  else "Inventory not available: " ++ message

/-- `handle_inventory_response` (main.py, lines 222-308), for an invoice
that exists: records the `inventory_status` narrative; when `available`
and `unit_price` is truthy sets `payment_status` and proceeds to
`request_payment_processing` with `amount = unit_price * quantity`;
otherwise marks the invoice FAILED.  The invoice's own `unit_price` /
`total_amount` columns are never written on the available path, and no
status transition is performed there. -/
def handle_inventory_response (inv : Invoice) (available : Bool)
    (unit_price : Option ℚ) (message : String) (publishOk : Bool) :
    Invoice × List Action :=
  let inv1 := update_inventory_status inv (inventoryStatusMsg available message)
  if available && truthyPrice unit_price then
    let inv2 := update_payment_status inv1 "Payment processing initiated"
    request_payment_processing inv2 (unit_price.getD 0 * (inv.quantity : ℚ)) publishOk
  else
    (update_invoice_status inv1 .failed none
        (some "Invoice failed due to inventory issues"), [])

/-- `handle_payment_completed` (main.py, lines 443-501), for an invoice
that exists: CANCELLED and FAILED invoices only get a `payment_status`
note, COMPLETED invoices are left untouched; every other status
(PENDING, PROCESSING, PAYMENT_PROCESSING) is moved to COMPLETED and a
completion notification is sent. -/
def handle_payment_completed (inv : Invoice) (transaction_id : String)
    (amount : ℚ) : Invoice × List Action :=
  if inv.status = .cancelled then
    (update_payment_status inv
        ("Payment received after cancellation (timeout). Transaction ID: "
          ++ transaction_id ++ ". No state change."), [])
  else if inv.status = .completed then
    (inv, [])
  else if inv.status = .failed then
    (update_payment_status inv
        ("Late payment received for failed invoice. Transaction ID: "
          ++ transaction_id ++ ". No state change."), [])
  else
    let note := "Payment completed successfully. Transaction ID: "
      ++ transaction_id ++ ", Amount: " ++ toString amount
    let inv1 := update_payment_status inv note
    let inv2 := update_invoice_status inv1 .completed none (some note)
    (inv2, [.sendNotification inv.id "completed"])

/-- `check_payment_timeout` (main.py, lines 365-409), the body after the
sleep: the guard compares the status against PROCESSING (the source line
is `invoice.status == InvoiceStatus.PROCESSING.value`); only then does it
cancel the invoice, set `payment_status`, publish compensation with the
invoice's product and quantity and send a cancellation notification. -/
def check_payment_timeout (inv : Option Invoice) (timeout_seconds : Nat) :
    Option Invoice × List Action :=
  match inv with
  | none => (none, [])
  | some inv =>
    if inv.status = .processing then
      let inv1 := update_invoice_status inv .cancelled none
          (some ("Payment processing timed out after "
            ++ toString timeout_seconds ++ " seconds"))
      let inv2 := update_payment_status inv1
          ("Payment failed: Timeout after waiting "
            ++ toString timeout_seconds ++ " seconds without response")
      (some inv2,
       [.publishCompensation inv.id inv.product_id inv.quantity
          "Payment processing timeout",
        .sendNotification inv.id "cancelled"])
    else (some inv, [])

/-- The note appended by `handle_inventory_compensated`. -/
def compensationNote (qty : Nat) : String :=
  "\n[COMPENSATED] Restored " ++ toString qty ++ " units to inventory"

/-- `handle_inventory_compensated` (main.py, lines 580-615): on a
successful compensation confirmation for an invoice that exists, the
handler calls `update_invoice_status(..., CANCELLED, notes + note)`
unconditionally - there is no check of the current status - and sends a
cancellation notification.  On failure (or a missing invoice) nothing
changes. -/
def handle_inventory_compensated (inv : Option Invoice)
    (compensation_successful : Bool) (quantity_restored : Nat) :
    Option Invoice × List Action :=
  if compensation_successful then
    match inv with
    | some inv =>
      let notes := (inv.notes.getD "") ++ compensationNote quantity_restored
      (some (update_invoice_status inv .cancelled none (some notes)),
       [.sendNotification inv.id "cancelled"])
    | none => (none, [])
  else (inv, [])

end Billing

namespace Inventory

/-- The persisted inventory row (`models/inventory_item.py`). -/
structure InventoryItem where
  product_id : String
  name : String
  quantity : Nat
  price : ℚ
  available : Bool
deriving DecidableEq, Repr

/-- `InventoryService.update_item_quantity` (inventory_service.py, lines
37-64): adds the signed delta, raises (`none`) when the result would be
negative, otherwise commits the new quantity and the derived
`available = quantity > 0`. -/
def update_item_quantity (item : InventoryItem) (quantity_change : Int) :
    Option InventoryItem :=
  let new_quantity : Int := (item.quantity : Int) + quantity_change
  if new_quantity < 0 then none
  else some { item with
    quantity := new_quantity.toNat
    available := decide (0 < new_quantity) }

/-- The `inventory-compensated` confirmation published back to billing. -/
structure CompensatedEvent where
  invoice_id : Nat
  quantity_restored : Nat
  current_stock : Nat
  compensation_successful : Bool
deriving DecidableEq, Repr

/-- `handle_compensate_inventory` (main.py, lines 130-221), restricted to
the row of the event's product: if the product is missing the handler
returns an error without touching stock; otherwise it credits the event's
quantity via `update_item_quantity` and publishes a success confirmation.
The source keeps no record of applied compensations - every delivery
credits the stock again. -/
def handle_compensate_inventory (item : Option InventoryItem)
    (invoice_id : Nat) (quantity : Nat) :
    Option InventoryItem × Option CompensatedEvent :=
  match item with
  | none => (none, none)
  | some it =>
    match update_item_quantity it (quantity : Int) with
    | some it2 =>
      (some it2, some ⟨invoice_id, quantity, it2.quantity, true⟩)
    | none => (some it, none)

/-- One delivery of a fixed `compensate-inventory` event to an existing
item (the row after `handle_compensate_inventory`). -/
def deliver_once (item : InventoryItem) (invoice_id : Nat) (q : Nat) :
    InventoryItem :=
  ((handle_compensate_inventory (some item) invoice_id q).1).getD item

/-- `n` at-least-once deliveries of the same `compensate-inventory`
event. -/
def deliver_n (invoice_id : Nat) (q : Nat) : Nat → InventoryItem → InventoryItem
  | 0, item => item
  | Nat.succ n, item => deliver_n invoice_id q n (deliver_once item invoice_id q)

end Inventory

namespace Deletion

/-- `CustomerStatus` enum from `account_service/app/models/customer.py`. -/
inductive CustomerStatus where
  | active
  | inactive
  | pending_deletion
  | deleted
deriving DecidableEq, Repr

/-- One recorded vote in `deletion_responses`.  `response_type` is
`some "silence_timeout"` exactly for the synthetic votes injected by the
silence-timeout paths of `deletion_service.py`. -/
structure Vote where
  can_delete : Bool
  blocking_reason : Option String
  response_type : Option String
deriving DecidableEq, Repr

/-- The customer row fields driven by `CustomerDeletionService`
(`models/customer.py`).  `deletion_responses` is the JSON map modelled as
an insertion-ordered association list, `deletion_blocked_by` the JSON list
of `{service, reason}` pairs. -/
structure Customer where
  customer_id : String
  status : CustomerStatus
  deletion_requested_at : Option Nat
  deletion_responses : List (String × Vote)
  deletion_blocked_by : Option (List (String × Option String))
  deletion_completed : Bool
deriving DecidableEq, Repr

/-- Dictionary lookup `responses.get(service)`. -/
def getResponse : List (String × Vote) → String → Option Vote
  | [], _ => none
  | (s', v) :: rest, s => if s' = s then some v else getResponse rest s

/-- Dictionary insertion `responses[service] = vote`: overwrites an
existing key in place, appends a new key. -/
def recordVote : List (String × Vote) → String → Vote → List (String × Vote)
  | [], s, v => [(s, v)]
  | (s', v') :: rest, s, v =>
    if s' = s then (s, v) :: rest else (s', v') :: recordVote rest s v

/-- The expected-services set, hard-coded in `deletion_service.py`. -/
def expected_services : List String :=
  ["billing-service", "inventory-service", "payment-service"]

/-- `expected_services.issubset(responses.keys())`. -/
def allResponded (rs : List (String × Vote)) : Bool :=
  expected_services.all (fun s => (getResponse rs s).isSome)

/-- The `blocking_services` list computed in
`CustomerDeletionService._finalize_deletion_decision`: every recorded vote
with `can_delete = false`, as a `{service, reason}` pair. -/
def blocking_services (rs : List (String × Vote)) :
    List (String × Option String) :=
  (rs.filter (fun p => !p.2.can_delete)).map (fun p => (p.1, p.2.blocking_reason))

/-- The decision reported by `_finalize_deletion_decision`. -/
inductive Decision where
  | deletion_cancelled (blocked_by : List (String × Option String))
  | customer_deleted
deriving DecidableEq, Repr

/-- `CustomerDeletionService._finalize_deletion_decision`
(deletion_service.py, lines 426-475): with at least one blocking vote the
customer goes back to ACTIVE, `deletion_requested_at` is cleared and
`deletion_blocked_by` recorded; otherwise the status becomes DELETED.
The function neither rewrites `deletion_responses` nor touches
`deletion_completed`. -/
def finalize_deletion_decision (c : Customer)
    (responses : List (String × Vote)) : Customer × Decision :=
  match blocking_services responses with
  | [] => ({ c with status := .deleted }, .customer_deleted)
  | b :: bs =>
    ({ c with
        status := .active
        deletion_requested_at := none
        deletion_blocked_by := some (b :: bs) },
     .deletion_cancelled (b :: bs))

/-- Result returned by `process_deletion_response`. -/
inductive ProcessResult where
  | not_in_deletion
  | waiting (pending : List String)
  | finalized (d : Decision)
deriving DecidableEq, Repr

/-- `CustomerDeletionService.process_deletion_response`
(deletion_service.py, lines 258-303): rejected unless the customer is
PENDING_DELETION; records the vote; finalizes only once every expected
service has responded, otherwise keeps waiting. -/
def process_deletion_response (c : Customer) (service_name : String)
    (can_delete : Bool) (blocking_reason : Option String) :
    Customer × ProcessResult :=
  if c.status ≠ .pending_deletion then (c, .not_in_deletion)
  else
    let responses := recordVote c.deletion_responses service_name
      ⟨can_delete, blocking_reason, none⟩
    let c1 := { c with deletion_responses := responses }
    if allResponded responses then
      let fd := finalize_deletion_decision c1 responses
      (fd.1, .finalized fd.2)
    else
      (c1, .waiting (expected_services.filter
        (fun s => !(getResponse responses s).isSome)))

/-- The synthetic consent vote injected by the silence-timeout paths. -/
def silence_vote : Vote :=
  { can_delete := true, blocking_reason := none,
    response_type := some "silence_timeout" }

/-- `CustomerDeletionService._execute_deletion_by_silence`
(deletion_service.py, lines 141-194): marks the customer DELETED,
overwrites `deletion_responses` with a synthetic silence-timeout consent
vote per expected service and notifies completion with method
`silence_timeout`. -/
def execute_deletion_by_silence (c : Customer) : Customer × String :=
  ({ c with
      status := .deleted
      deletion_responses := expected_services.map (fun s => (s, silence_vote)) },
   "silence_timeout")

/-- Outcome of the silence timer firing. -/
inductive SilenceOutcome where
  | no_action
  | deleted_by_silence (method : String)
  | finalized (d : Decision)
deriving DecidableEq, Repr

/-- `CustomerDeletionService._start_silence_timeout`
(deletion_service.py, lines 88-139), the body after the sleep: nothing
unless still PENDING_DELETION; with no recorded response it deletes by
silence; with all expected services responded it finalizes normally;
otherwise it fills the missing services with synthetic consent votes
(without persisting them) and finalizes on the augmented set. -/
def start_silence_timeout_fire (c : Customer) : Customer × SilenceOutcome :=
  if c.status ≠ .pending_deletion then (c, .no_action)
  else if c.deletion_responses.isEmpty then
    let ed := execute_deletion_by_silence c
    (ed.1, .deleted_by_silence ed.2)
  else if allResponded c.deletion_responses then
    let fd := finalize_deletion_decision c c.deletion_responses
    (fd.1, .finalized fd.2)
  else
    let responses := expected_services.foldl
      (fun rs s => if (getResponse rs s).isSome then rs
        else recordVote rs s silence_vote)
      c.deletion_responses
    let fd := finalize_deletion_decision c responses
    (fd.1, .finalized fd.2)

/-- Result of `request_customer_deletion`. -/
inductive RequestResult where
  | already_in_progress
  | started
  | publish_failed
deriving DecidableEq, Repr

/-- `CustomerDeletionService.request_customer_deletion`
(deletion_service.py, lines 21-85), for a customer that exists: rejected
only when already PENDING_DELETION; otherwise marks PENDING_DELETION,
stamps `deletion_requested_at` and clears the response fields, then
broadcasts.  When the broadcast publish fails (non-204 status or an
exception) the rollback sets the status to ACTIVE - not to the
pre-request value - and clears `deletion_requested_at`. -/
def request_customer_deletion (c : Customer) (now : Nat) (publishOk : Bool) :
    Customer × RequestResult :=
  if c.status = .pending_deletion then (c, .already_in_progress)
  else
    let c1 := { c with
      status := .pending_deletion
      deletion_requested_at := some now
      deletion_responses := []
      deletion_blocked_by := none }
    if publishOk then (c1, .started)
    else ({ c1 with status := .active, deletion_requested_at := none },
      .publish_failed)

end Deletion

open Billing Inventory Deletion

/-! ## Helper lemmas -/

/-- A single delivery of a compensation event credits exactly the event's
quantity. -/
theorem deliver_once_quantity (item : InventoryItem) (invoice_id q : Nat) :
    (Inventory.deliver_once item invoice_id q).quantity = item.quantity + q := by
  unfold Inventory.deliver_once Inventory.handle_compensate_inventory
    Inventory.update_item_quantity
  have h : ¬ ((item.quantity : Int) + (q : Int) < 0) := by omega
  simp only [h, if_false, Option.getD_some]
  omega

/-- Looking up the key just written returns the new vote. -/
theorem getResponse_recordVote_self (rs : List (String × Vote)) (s : String)
    (v : Vote) : Deletion.getResponse (Deletion.recordVote rs s v) s = some v := by
  induction rs with
  | nil => simp [Deletion.recordVote, Deletion.getResponse]
  | cons p rest ih =>
    obtain ⟨s', v'⟩ := p
    by_cases h : s' = s
    · simp [Deletion.recordVote, Deletion.getResponse, h]
    · simp [Deletion.recordVote, Deletion.getResponse, h, ih]

/-- A successful lookup exhibits a member of the association list. -/
theorem getResponse_some_mem (rs : List (String × Vote)) (s : String) (v : Vote)
    (h : Deletion.getResponse rs s = some v) : (s, v) ∈ rs := by
  induction rs with
  | nil => simp [Deletion.getResponse] at h
  | cons p rest ih =>
    obtain ⟨s', v'⟩ := p
    by_cases hs : s' = s
    · subst hs
      simp [Deletion.getResponse] at h
      simp [h]
    · simp [Deletion.getResponse, hs] at h
      exact List.mem_cons_of_mem _ (ih h)

/-- The blocking list is empty exactly when every recorded vote consents. -/
theorem blocking_services_eq_nil_iff (rs : List (String × Vote)) :
    Deletion.blocking_services rs = [] ↔ ∀ p ∈ rs, p.2.can_delete = true := by
  simp [Deletion.blocking_services, List.map_eq_nil_iff, List.filter_eq_nil_iff]

/-- Writing a vote under a key that is not yet present appends it. -/
theorem recordVote_of_getResponse_none (rs : List (String × Vote)) (s : String)
    (v : Vote) (h : Deletion.getResponse rs s = none) :
    Deletion.recordVote rs s v = rs ++ [(s, v)] := by
  induction rs with
  | nil => simp [Deletion.recordVote]
  | cons p rest ih =>
    obtain ⟨s', v'⟩ := p
    by_cases hs : s' = s
    · simp [Deletion.getResponse, hs] at h
    · simp [Deletion.getResponse, hs] at h
      simp [Deletion.recordVote, hs, ih h]

/-- Filling in synthetic silence votes never removes recorded votes. -/
theorem mem_silence_augment (l : List String) (rs : List (String × Vote))
    (p : String × Vote) (hp : p ∈ rs) :
    p ∈ l.foldl (fun rs s => if (Deletion.getResponse rs s).isSome then rs
      else Deletion.recordVote rs s Deletion.silence_vote) rs := by
  induction l generalizing rs with
  | nil => simpa
  | cons s rest ih =>
    simp only [List.foldl_cons]
    apply ih
    by_cases h : (Deletion.getResponse rs s).isSome
    · simpa [h]
    · have h0 : Deletion.getResponse rs s = none := by
        cases hg : Deletion.getResponse rs s
        · rfl
        · simp [hg] at h
      rw [if_neg (by simp [h0])]
      rw [recordVote_of_getResponse_none rs s Deletion.silence_vote h0]
      exact List.mem_append_left _ hp

/-- `_finalize_deletion_decision` never rewrites `deletion_responses`. -/
theorem finalize_responses_eq (c : Customer) (rs : List (String × Vote)) :
    (Deletion.finalize_deletion_decision c rs).1.deletion_responses
      = c.deletion_responses := by
  unfold Deletion.finalize_deletion_decision
  cases Deletion.blocking_services rs <;> rfl

/-- `_finalize_deletion_decision` never touches `deletion_completed`. -/
theorem finalize_completed_eq (c : Customer) (rs : List (String × Vote)) :
    (Deletion.finalize_deletion_decision c rs).1.deletion_completed
      = c.deletion_completed := by
  unfold Deletion.finalize_deletion_decision
  cases Deletion.blocking_services rs <;> rfl

/-- `_finalize_deletion_decision` commits DELETED only with an empty
blocking list. -/
theorem finalize_deleted_blocking_nil (c : Customer) (rs : List (String × Vote))
    (h : (Deletion.finalize_deletion_decision c rs).1.status = .deleted) :
    Deletion.blocking_services rs = [] := by
  unfold Deletion.finalize_deletion_decision at h
  cases hb : Deletion.blocking_services rs with
  | nil => rfl
  | cons b bs => rw [hb] at h; simp at h

/-- A recorded veto makes the blocking list nonempty. -/
theorem blocking_services_ne_nil (rs : List (String × Vote)) (s : String)
    (v : Vote) (hget : Deletion.getResponse rs s = some v)
    (hv : v.can_delete = false) : Deletion.blocking_services rs ≠ [] := by
  intro hnil
  have hall := (blocking_services_eq_nil_iff rs).mp hnil
  have hmem := getResponse_some_mem rs s v hget
  have := hall (s, v) hmem
  rw [hv] at this
  exact Bool.false_ne_true this

/-! ## Claim theorems -/

/-- C2 (corrected): the compensation handler keeps no idempotency record;
delivering the same `compensate-inventory` event twice credits the stock
twice.  For product stock 0 and event quantity 2, two deliveries change
the stock by 4, a single delivery by 2. -/
theorem claim_C2_counterexample :
    (Inventory.deliver_n 7 2 2 ⟨"P1", "Widget", 0, 10, false⟩).quantity
        - (⟨"P1", "Widget", 0, 10, false⟩ : InventoryItem).quantity
      ≠ (Inventory.deliver_n 7 2 1 ⟨"P1", "Widget", 0, 10, false⟩).quantity
        - (⟨"P1", "Widget", 0, 10, false⟩ : InventoryItem).quantity := by
  decide

/-- C2 (amended): `n` at-least-once deliveries of the same
`compensate-inventory` event for an existing item credit the stock `n`
times the event's quantity - the net stock delta equals that of a single
delivery only for `n = 1` (or a zero quantity); the handler performs no
duplicate short-circuit. -/
theorem claim_C2_amended (invoice_id q n : Nat) (item : InventoryItem) :
    (Inventory.deliver_n invoice_id q n item).quantity
      = item.quantity + n * q := by
  induction n generalizing item with
  | zero => simp [Inventory.deliver_n]
  | succ n ih =>
    show (Inventory.deliver_n invoice_id q n
      (Inventory.deliver_once item invoice_id q)).quantity = _
    rw [ih, deliver_once_quantity]
    ring

/-- C10 (confirmed): when the payment-request publish fails,
`handle_payment_request_failure` publishes a `compensate-inventory` event
with the hard-coded quantity 1 - not the invoice's quantity - and then
cancels the invoice; for any invoice with quantity above 1 the restored
stock (1) is strictly less than the reserved stock. -/
theorem claim_C10 (inv : Invoice) (pid reason : String)
    (h : 1 < inv.quantity) :
    ((Billing.handle_payment_request_failure inv pid reason).2
      = [.publishCompensation inv.id pid 1 ("Payment request failed: " ++ reason)])
  ∧ ((Billing.handle_payment_request_failure inv pid reason).1.status
      = .cancelled)
  ∧ 1 < inv.quantity ∧ (1 : Nat) ≠ inv.quantity := by
  refine ⟨rfl, ?_, h, Nat.ne_of_lt h⟩
  simp [Billing.handle_payment_request_failure, Billing.update_invoice_status]

/-- Witness for C10 at a concrete invoice with quantity 3. -/
theorem claim_C10_witness :
    ((Billing.handle_payment_request_failure
        ⟨4, "INV-D", "C7", "d@x", "P9", 3, none, none, .processing,
          none, none, none, none⟩ "P9" "boom").2
      = [.publishCompensation 4 "P9" 1 "Payment request failed: boom"])
  ∧ ((Billing.handle_payment_request_failure
        ⟨4, "INV-D", "C7", "d@x", "P9", 3, none, none, .processing,
          none, none, none, none⟩ "P9" "boom").1.status = .cancelled)
  ∧ 1 < 3 ∧ (1 : Nat) ≠ 3 :=
  claim_C10 _ "P9" "boom" (by decide)

/-- C1 (corrected): terminal states are not absorbing.  A FAILED invoice -
terminal - has its status changed to CANCELLED by the inventory-compensated
confirmation handler, refuting the claim that late events leave a terminal
status unchanged. -/
theorem claim_C1_counterexample :
    ((Billing.handle_inventory_compensated
        (some ⟨1, "INV-A", "C1", "a@x", "P1", 2, none, none, .failed,
          some "Payment failed", none, none, none⟩) true 2).1.map
      Invoice.status) = some .cancelled
  ∧ InvoiceStatus.failed ≠ InvoiceStatus.cancelled := by
  exact ⟨rfl, by decide⟩

/-- C1 (amended): the payment-completed handler does leave a terminal
status unchanged, but the inventory-compensated confirmation handler, on a
successful compensation, sets the status to CANCELLED regardless of the
current status - so a FAILED or COMPLETED invoice changes status. -/
theorem claim_C1_amended :
    (∀ (inv : Invoice) (tx : String) (amt : ℚ),
       inv.status.isTerminal = true →
       (Billing.handle_payment_completed inv tx amt).1.status = inv.status)
  ∧ (∀ (inv : Invoice) (q : Nat),
       ((Billing.handle_inventory_compensated (some inv) true q).1.map
         Invoice.status) = some .cancelled) := by
  constructor
  · intro inv tx amt h
    cases hs : inv.status with
    | completed => simp [Billing.handle_payment_completed, hs]
    | failed =>
      simp [Billing.handle_payment_completed, hs, Billing.update_payment_status]
    | cancelled =>
      simp [Billing.handle_payment_completed, hs, Billing.update_payment_status]
    | pending => rw [hs] at h; simp [InvoiceStatus.isTerminal] at h
    | processing => rw [hs] at h; simp [InvoiceStatus.isTerminal] at h
    | payment_processing => rw [hs] at h; simp [InvoiceStatus.isTerminal] at h
  · intro inv q
    simp [Billing.handle_inventory_compensated, Billing.update_invoice_status]

/-- Witness for the amended C1 at a concrete CANCELLED invoice. -/
theorem claim_C1_witness :
    (Billing.handle_payment_completed
      ⟨2, "INV-B", "C2", "b@x", "P2", 1, none, none, .cancelled,
        none, none, none, none⟩ "T1" 20).1.status
    = (⟨2, "INV-B", "C2", "b@x", "P2", 1, none, none, .cancelled,
        none, none, none, none⟩ : Invoice).status :=
  claim_C1_amended.1 _ "T1" 20 (by decide)

/-- C5 (corrected): on an available inventory response for a PROCESSING
invoice, no PROCESSING to PAYMENT_PROCESSING transition happens and
`unit_price`/`total_amount` are not set: the invoice stays PROCESSING with
a null price. -/
theorem claim_C5_counterexample :
    ((Billing.handle_inventory_response
        ⟨1, "INV-C", "C1", "a@x", "P1", 2, none, none, .processing,
          none, none, none, none⟩ true (some 10) "ok" true).1.status
      = .processing)
  ∧ ((Billing.handle_inventory_response
        ⟨1, "INV-C", "C1", "a@x", "P1", 2, none, none, .processing,
          none, none, none, none⟩ true (some 10) "ok" true).1.unit_price
      = none)
  ∧ ((Billing.handle_inventory_response
        ⟨1, "INV-C", "C1", "a@x", "P1", 2, none, none, .processing,
          none, none, none, none⟩ true (some 10) "ok" true).1.total_amount
      = none)
  ∧ InvoiceStatus.processing ≠ InvoiceStatus.payment_processing := by
  decide

/-- C5 (amended): on an available inventory response with a truthy unit
price and a successful publish, the handler records `inventory_status`,
sets `payment_status = "Payment processing initiated"`, publishes
`payment-request` with amount `unit_price * quantity` and schedules the
60-second payment timeout - but the invoice's status, `unit_price` and
`total_amount` are left untouched (a PROCESSING invoice stays
PROCESSING). -/
theorem claim_C5_amended (inv : Invoice) (p : ℚ) (msg : String)
    (hp : p ≠ 0) :
    ((Billing.handle_inventory_response inv true (some p) msg true).1.status
      = inv.status)
  ∧ ((Billing.handle_inventory_response inv true (some p) msg true).1.unit_price
      = inv.unit_price)
  ∧ ((Billing.handle_inventory_response inv true (some p) msg true).1.total_amount
      = inv.total_amount)
  ∧ ((Billing.handle_inventory_response inv true (some p) msg true).1.inventory_status
      = some (Billing.inventoryStatusMsg true msg))
  ∧ ((Billing.handle_inventory_response inv true (some p) msg true).1.payment_status
      = some "Payment processing initiated")
  ∧ ((Billing.handle_inventory_response inv true (some p) msg true).2
      = [.schedulePaymentTimeout inv.id 60,
         .publishPaymentRequest inv.id (p * (inv.quantity : ℚ))
           inv.customer_id inv.product_id]) := by
  have ht : Billing.truthyPrice (some p) = true := by
    simp [Billing.truthyPrice, hp]
  simp [Billing.handle_inventory_response, ht,
    Billing.request_payment_processing, Billing.update_inventory_status,
    Billing.update_payment_status]

/-- Witness for the amended C5 at a concrete PROCESSING invoice with unit
price 10. -/
theorem claim_C5_witness :
    ((Billing.handle_inventory_response
        ⟨3, "INV-E", "C3", "c@x", "P3", 2, none, none, .processing,
          none, none, none, none⟩ true (some 10) "ok" true).1.status
      = (⟨3, "INV-E", "C3", "c@x", "P3", 2, none, none, .processing,
          none, none, none, none⟩ : Invoice).status)
  ∧ ((Billing.handle_inventory_response
        ⟨3, "INV-E", "C3", "c@x", "P3", 2, none, none, .processing,
          none, none, none, none⟩ true (some 10) "ok" true).1.unit_price
      = (⟨3, "INV-E", "C3", "c@x", "P3", 2, none, none, .processing,
          none, none, none, none⟩ : Invoice).unit_price)
  ∧ ((Billing.handle_inventory_response
        ⟨3, "INV-E", "C3", "c@x", "P3", 2, none, none, .processing,
          none, none, none, none⟩ true (some 10) "ok" true).1.total_amount
      = (⟨3, "INV-E", "C3", "c@x", "P3", 2, none, none, .processing,
          none, none, none, none⟩ : Invoice).total_amount)
  ∧ ((Billing.handle_inventory_response
        ⟨3, "INV-E", "C3", "c@x", "P3", 2, none, none, .processing,
          none, none, none, none⟩ true (some 10) "ok" true).1.inventory_status
      = some (Billing.inventoryStatusMsg true "ok"))
  ∧ ((Billing.handle_inventory_response
        ⟨3, "INV-E", "C3", "c@x", "P3", 2, none, none, .processing,
          none, none, none, none⟩ true (some 10) "ok" true).1.payment_status
      = some "Payment processing initiated")
  ∧ ((Billing.handle_inventory_response
        ⟨3, "INV-E", "C3", "c@x", "P3", 2, none, none, .processing,
          none, none, none, none⟩ true (some 10) "ok" true).2
      = [.schedulePaymentTimeout 3 60,
         .publishPaymentRequest 3 ((10 : ℚ) * ((2 : Nat) : ℚ)) "C3" "P3"]) :=
  claim_C5_amended _ 10 "ok" (by norm_num)

/-- C6 (corrected): a payment-completed event moves a PROCESSING invoice -
whose status is not PAYMENT_PROCESSING - to COMPLETED, refuting the claim
that COMPLETED is produced only from PAYMENT_PROCESSING. -/
theorem claim_C6_counterexample :
    ((Billing.handle_payment_completed
        ⟨5, "INV-F", "C5", "e@x", "P5", 2, none, none, .processing,
          none, none, none, none⟩ "T1" 20).1.status = .completed)
  ∧ InvoiceStatus.processing ≠ InvoiceStatus.payment_processing := by
  exact ⟨rfl, by decide⟩

/-- C6 (amended): a payment-completed event sets COMPLETED from every
status outside the terminal set \x7bCANCELLED, COMPLETED, FAILED\x7d (so also
from PENDING and PROCESSING); a CANCELLED or FAILED invoice only gets the
late payment recorded in `payment_status`, a COMPLETED invoice is left
untouched. -/
theorem claim_C6_amended (inv : Invoice) (tx : String) (amt : ℚ) :
    ((Billing.handle_payment_completed inv tx amt).1.status
      = if inv.status = .cancelled ∨ inv.status = .completed
            ∨ inv.status = .failed
        then inv.status else .completed)
  ∧ (inv.status = .cancelled →
       (Billing.handle_payment_completed inv tx amt).1.payment_status
         = some ("Payment received after cancellation (timeout). Transaction ID: "
             ++ tx ++ ". No state change."))
  ∧ (inv.status = .completed →
       Billing.handle_payment_completed inv tx amt = (inv, []))
  ∧ (inv.status = .failed →
       (Billing.handle_payment_completed inv tx amt).1.payment_status
         = some ("Late payment received for failed invoice. Transaction ID: "
             ++ tx ++ ". No state change.")) := by
  cases hs : inv.status <;>
    simp [Billing.handle_payment_completed, hs,
      Billing.update_payment_status, Billing.update_invoice_status]

/-- Witness for the amended C6 at a concrete CANCELLED invoice. -/
theorem claim_C6_witness :
    ((Billing.handle_payment_completed
        ⟨6, "INV-G", "C6", "f@x", "P6", 1, none, none, .cancelled,
          none, none, none, none⟩ "T2" 5).1.status
      = if (⟨6, "INV-G", "C6", "f@x", "P6", 1, none, none, .cancelled,
              none, none, none, none⟩ : Invoice).status = .cancelled
            ∨ (⟨6, "INV-G", "C6", "f@x", "P6", 1, none, none, .cancelled,
              none, none, none, none⟩ : Invoice).status = .completed
            ∨ (⟨6, "INV-G", "C6", "f@x", "P6", 1, none, none, .cancelled,
              none, none, none, none⟩ : Invoice).status = .failed
        then (⟨6, "INV-G", "C6", "f@x", "P6", 1, none, none, .cancelled,
              none, none, none, none⟩ : Invoice).status else .completed)
  ∧ ((⟨6, "INV-G", "C6", "f@x", "P6", 1, none, none, .cancelled,
        none, none, none, none⟩ : Invoice).status = .cancelled →
      (Billing.handle_payment_completed
        ⟨6, "INV-G", "C6", "f@x", "P6", 1, none, none, .cancelled,
          none, none, none, none⟩ "T2" 5).1.payment_status
        = some ("Payment received after cancellation (timeout). Transaction ID: "
            ++ "T2" ++ ". No state change."))
  ∧ ((⟨6, "INV-G", "C6", "f@x", "P6", 1, none, none, .cancelled,
        none, none, none, none⟩ : Invoice).status = .completed →
      Billing.handle_payment_completed
        ⟨6, "INV-G", "C6", "f@x", "P6", 1, none, none, .cancelled,
          none, none, none, none⟩ "T2" 5
        = (⟨6, "INV-G", "C6", "f@x", "P6", 1, none, none, .cancelled,
            none, none, none, none⟩, []))
  ∧ ((⟨6, "INV-G", "C6", "f@x", "P6", 1, none, none, .cancelled,
        none, none, none, none⟩ : Invoice).status = .failed →
      (Billing.handle_payment_completed
        ⟨6, "INV-G", "C6", "f@x", "P6", 1, none, none, .cancelled,
          none, none, none, none⟩ "T2" 5).1.payment_status
        = some ("Late payment received for failed invoice. Transaction ID: "
            ++ "T2" ++ ". No state change.")) :=
  claim_C6_amended _ "T2" 5

/-- C7 (corrected): the payment timer's guard tests PROCESSING, not
PAYMENT_PROCESSING: an invoice still PROCESSING at expiry - a state other
than PAYMENT_PROCESSING - is cancelled by the timer, refuting the claim
that the timer changes nothing in such states. -/
theorem claim_C7_counterexample :
    ((Billing.check_payment_timeout
        (some ⟨7, "INV-H", "C7", "g@x", "P7", 2, none, none, .processing,
          none, none, none, none⟩) 60).1.map Invoice.status
      = some .cancelled)
  ∧ (⟨7, "INV-H", "C7", "g@x", "P7", 2, none, none, .processing,
        none, none, none, none⟩ : Invoice).status = .processing
  ∧ InvoiceStatus.processing ≠ InvoiceStatus.payment_processing := by
  exact ⟨rfl, rfl, by decide⟩

/-- C7 (amended): when the per-invoice payment timer fires, exactly the
invoices whose status at expiry is PROCESSING are cancelled, with a
compensate-inventory event carrying the invoice's product and quantity
and a cancellation notification; any other status at expiry - including
PAYMENT_PROCESSING - is left completely unchanged with no effects. -/
theorem claim_C7_amended (inv : Invoice) (t : Nat) :
    (inv.status = .processing →
        ((Billing.check_payment_timeout (some inv) t).1.map Invoice.status
          = some .cancelled)
      ∧ ((Billing.check_payment_timeout (some inv) t).2
          = [.publishCompensation inv.id inv.product_id inv.quantity
               "Payment processing timeout",
             .sendNotification inv.id "cancelled"]))
  ∧ (inv.status ≠ .processing →
      Billing.check_payment_timeout (some inv) t = (some inv, [])) := by
  constructor
  · intro h
    simp [Billing.check_payment_timeout, h,
      Billing.update_payment_status, Billing.update_invoice_status]
  · intro h
    simp [Billing.check_payment_timeout, h]

/-- Witness for the amended C7: a PROCESSING invoice is cancelled with
compensation; a PAYMENT_PROCESSING invoice is untouched. -/
theorem claim_C7_witness :
    (((Billing.check_payment_timeout
        (some ⟨8, "INV-J", "C8", "h@x", "P8", 4, none, none, .processing,
          none, none, none, none⟩) 60).1.map Invoice.status
        = some .cancelled)
      ∧ ((Billing.check_payment_timeout
          (some ⟨8, "INV-J", "C8", "h@x", "P8", 4, none, none, .processing,
            none, none, none, none⟩) 60).2
          = [.publishCompensation 8 "P8" 4 "Payment processing timeout",
             .sendNotification 8 "cancelled"]))
  ∧ (Billing.check_payment_timeout
        (some ⟨9, "INV-K", "C9", "i@x", "P9", 4, none, none,
          .payment_processing, none, none, none, none⟩) 60
      = (some ⟨9, "INV-K", "C9", "i@x", "P9", 4, none, none,
          .payment_processing, none, none, none, none⟩, [])) :=
  ⟨(claim_C7_amended _ 60).1 (by decide), (claim_C7_amended _ 60).2 (by decide)⟩

/-- With a nonempty blocking list, `_finalize_deletion_decision` cancels:
ACTIVE, cleared `deletion_requested_at`, recorded `deletion_blocked_by`. -/
theorem finalize_cancel_eq (c : Customer) (rs : List (String × Vote))
    (b : String × Option String) (bs : List (String × Option String))
    (hb : Deletion.blocking_services rs = b :: bs) :
    Deletion.finalize_deletion_decision c rs
      = ({ c with
             status := .active
             deletion_requested_at := none
             deletion_blocked_by := some (b :: bs) },
         .deletion_cancelled (b :: bs)) := by
  unfold Deletion.finalize_deletion_decision
  rw [hb]

/-- C3 (corrected): a veto does not finalize immediately.  Recording
billing's `can_delete = false` vote for a PENDING_DELETION customer with
no other responses leaves the customer PENDING_DELETION and waiting for
the two remaining expected services; nothing is finalized and
`deletion_completed` stays false. -/
theorem claim_C3_counterexample :
    ((Deletion.process_deletion_response
        ⟨"C3", .pending_deletion, some 100, [], none, false⟩
        "billing-service" false (some "active invoice")).1.status
      = .pending_deletion)
  ∧ ((Deletion.process_deletion_response
        ⟨"C3", .pending_deletion, some 100, [], none, false⟩
        "billing-service" false (some "active invoice")).1.deletion_completed
      = false)
  ∧ ((Deletion.process_deletion_response
        ⟨"C3", .pending_deletion, some 100, [], none, false⟩
        "billing-service" false (some "active invoice")).2
      = .waiting ["inventory-service", "payment-service"])
  ∧ CustomerStatus.pending_deletion ≠ CustomerStatus.active := by
  decide

/-- C3 (amended): a `can_delete = false` vote for a PENDING_DELETION
customer is only recorded; while some expected service has not responded
the customer stays PENDING_DELETION (the veto waits).  Only once every
expected service has responded does the handler finalize CANCEL: status
ACTIVE, `deletion_requested_at` cleared, `deletion_blocked_by` recorded -
and `deletion_completed` is never modified (it is not set to true). -/
theorem claim_C3_amended (c : Customer) (s : String) (r : Option String)
    (h : c.status = .pending_deletion) :
    (Deletion.allResponded
        (Deletion.recordVote c.deletion_responses s ⟨false, r, none⟩) = false →
        ((Deletion.process_deletion_response c s false r).1.status
          = .pending_deletion)
      ∧ ((Deletion.process_deletion_response c s false r).1.deletion_completed
          = c.deletion_completed))
  ∧ (Deletion.allResponded
        (Deletion.recordVote c.deletion_responses s ⟨false, r, none⟩) = true →
        ((Deletion.process_deletion_response c s false r).1.status = .active)
      ∧ ((Deletion.process_deletion_response c s false r).1.deletion_requested_at
          = none)
      ∧ ((Deletion.process_deletion_response c s false r).1.deletion_blocked_by
          = some (Deletion.blocking_services
              (Deletion.recordVote c.deletion_responses s ⟨false, r, none⟩)))
      ∧ ((Deletion.process_deletion_response c s false r).1.deletion_completed
          = c.deletion_completed)) := by
  constructor
  · intro hall
    simp [Deletion.process_deletion_response, h, hall]
  · intro hall
    have hget := getResponse_recordVote_self c.deletion_responses s
      ⟨false, r, none⟩
    have hne := blocking_services_ne_nil _ s _ hget rfl
    obtain ⟨b, bs, hb⟩ := List.exists_cons_of_ne_nil hne
    simp [Deletion.process_deletion_response, h, hall]
    rw [finalize_cancel_eq _ _ b bs hb]
    simp [hb]

/-- Witness for the amended C3: billing's veto arrives first (waiting),
and the veto customer is cancelled once inventory and payment have also
responded. -/
theorem claim_C3_witness :
    (((Deletion.process_deletion_response
        ⟨"C3a", .pending_deletion, some 100, [], none, false⟩
        "billing-service" false (some "active invoice")).1.status
        = .pending_deletion)
      ∧ ((Deletion.process_deletion_response
          ⟨"C3a", .pending_deletion, some 100, [], none, false⟩
          "billing-service" false (some "active invoice")).1.deletion_completed
          = false))
  ∧ ((Deletion.process_deletion_response
        ⟨"C3b", .pending_deletion, some 100,
          [("billing-service", ⟨true, none, none⟩),
           ("inventory-service", ⟨true, none, none⟩)], none, false⟩
        "payment-service" false (some "pending balance")).1.status
      = .active) :=
  ⟨(claim_C3_amended _ "billing-service" (some "active invoice")
      rfl).1 (by decide),
   ((claim_C3_amended _ "payment-service" (some "pending balance")
      rfl).2 (by decide)).1⟩

/-- C4 (confirmed): on every finalization path of the deletion
coordinator - a response completing the expected set, the silence timer
with partial responses, and the silence timer with no responses - the
customer's status is set to DELETED only if no vote recorded at that
instant has `can_delete = false`. -/
theorem claim_C4 :
    (∀ (c : Customer) (s : String) (cd : Bool) (r : Option String),
       c.status = .pending_deletion →
       (Deletion.process_deletion_response c s cd r).1.status = .deleted →
       ∀ p ∈ (Deletion.process_deletion_response c s cd r).1.deletion_responses,
         p.2.can_delete = true)
  ∧ (∀ c : Customer, c.status = .pending_deletion →
       (Deletion.start_silence_timeout_fire c).1.status = .deleted →
       ∀ p ∈ c.deletion_responses, p.2.can_delete = true)
  ∧ (∀ (c : Customer) (rs : List (String × Vote)),
       (Deletion.finalize_deletion_decision c rs).1.status = .deleted →
       ∀ p ∈ rs, p.2.can_delete = true) := by
  refine ⟨?_, ?_, ?_⟩
  · intro c s cd r h hdel p hp
    by_cases hall : Deletion.allResponded
        (Deletion.recordVote c.deletion_responses s ⟨cd, r, none⟩) = true
    · simp only [Deletion.process_deletion_response, h, hall] at hdel hp
      simp at hdel hp
      rw [finalize_responses_eq] at hp
      simp at hp
      exact (blocking_services_eq_nil_iff _).mp
        (finalize_deleted_blocking_nil _ _ hdel) p hp
    · rw [Bool.not_eq_true] at hall
      simp [Deletion.process_deletion_response, h, hall] at hdel
  · intro c h hdel p hp
    by_cases hemp : c.deletion_responses.isEmpty = true
    · rw [List.isEmpty_iff] at hemp
      rw [hemp] at hp
      simp at hp
    · by_cases hall : Deletion.allResponded c.deletion_responses = true
      · have hfire : (Deletion.start_silence_timeout_fire c).1
            = (Deletion.finalize_deletion_decision c c.deletion_responses).1 := by
          simp [Deletion.start_silence_timeout_fire, h, hemp, hall]
        rw [hfire] at hdel
        exact (blocking_services_eq_nil_iff _).mp
          (finalize_deleted_blocking_nil _ _ hdel) p hp
      · rw [Bool.not_eq_true] at hall
        have hfire : (Deletion.start_silence_timeout_fire c).1
            = (Deletion.finalize_deletion_decision c
                (Deletion.expected_services.foldl
                  (fun rs s => if (Deletion.getResponse rs s).isSome then rs
                    else Deletion.recordVote rs s Deletion.silence_vote)
                  c.deletion_responses)).1 := by
          simp [Deletion.start_silence_timeout_fire, h, hemp, hall]
        rw [hfire] at hdel
        exact (blocking_services_eq_nil_iff _).mp
          (finalize_deleted_blocking_nil _ _ hdel) p
          (mem_silence_augment _ _ p hp)
  · intro c rs h p hp
    exact (blocking_services_eq_nil_iff _).mp
      (finalize_deleted_blocking_nil _ _ h) p hp

/-- Witness for C4: payment's consent completes the expected set, the
customer is DELETED, and indeed every recorded vote consents. -/
theorem claim_C4_witness :
    ∀ p ∈ (Deletion.process_deletion_response
        ⟨"C4", .pending_deletion, some 1,
          [("billing-service", ⟨true, none, none⟩),
           ("inventory-service", ⟨true, none, none⟩)], none, false⟩
        "payment-service" true none).1.deletion_responses,
      p.2.can_delete = true :=
  claim_C4.1 _ "payment-service" true none (by decide) (by decide)

/-- C8 (confirmed): a pending deletion with no recorded response commits
when the silence timer fires: the customer becomes DELETED, every expected
service gets a synthetic consent vote marked `silence_timeout` in
`deletion_responses`, and the completion notification carries
`method = silence_timeout`. -/
theorem claim_C8 (c : Customer) (h1 : c.status = .pending_deletion)
    (h2 : c.deletion_responses = []) :
    ((Deletion.start_silence_timeout_fire c).1.status = .deleted)
  ∧ ((Deletion.start_silence_timeout_fire c).1.deletion_responses
      = Deletion.expected_services.map (fun s => (s, Deletion.silence_vote)))
  ∧ (∀ p ∈ (Deletion.start_silence_timeout_fire c).1.deletion_responses,
      p.2.can_delete = true ∧ p.2.response_type = some "silence_timeout")
  ∧ ((Deletion.start_silence_timeout_fire c).2
      = .deleted_by_silence "silence_timeout") := by
  have hfire : Deletion.start_silence_timeout_fire c
      = ({ c with
            status := .deleted
            deletion_responses := Deletion.expected_services.map
              (fun s => (s, Deletion.silence_vote)) },
         .deleted_by_silence "silence_timeout") := by
    simp [Deletion.start_silence_timeout_fire, h1, h2,
      Deletion.execute_deletion_by_silence]
  refine ⟨by simp [hfire], by simp [hfire], ?_, by simp [hfire]⟩
  rw [hfire]
  intro p hp
  simp [Deletion.expected_services] at hp
  rcases hp with h | h | h <;> rw [h] <;>
    simp [Deletion.silence_vote]

/-- Witness for C8 at a concrete pending customer with no responses. -/
theorem claim_C8_witness :
    ((Deletion.start_silence_timeout_fire
        ⟨"C8", .pending_deletion, some 5, [], none, false⟩).1.status = .deleted)
  ∧ ((Deletion.start_silence_timeout_fire
        ⟨"C8", .pending_deletion, some 5, [], none, false⟩).1.deletion_responses
      = Deletion.expected_services.map (fun s => (s, Deletion.silence_vote)))
  ∧ (∀ p ∈ (Deletion.start_silence_timeout_fire
        ⟨"C8", .pending_deletion, some 5, [], none, false⟩).1.deletion_responses,
      p.2.can_delete = true ∧ p.2.response_type = some "silence_timeout")
  ∧ ((Deletion.start_silence_timeout_fire
        ⟨"C8", .pending_deletion, some 5, [], none, false⟩).2
      = .deleted_by_silence "silence_timeout") :=
  claim_C8 _ rfl rfl

/-- C9 (corrected): the publish-failure rollback of
`request_customer_deletion` sets the status to ACTIVE unconditionally -
for an INACTIVE customer the pre-request status is not restored. -/
theorem claim_C9_counterexample :
    ((Deletion.request_customer_deletion
        ⟨"C2", .inactive, none, [], none, false⟩ 5 false).1.status = .active)
  ∧ CustomerStatus.active ≠ CustomerStatus.inactive := by
  decide

/-- C9 (amended): when the initial deletion broadcast publish fails, the
customer's status is set to ACTIVE (which equals the pre-request value
only when that value was ACTIVE) and `deletion_requested_at` is left
null; this holds for every status from which the request is admitted
(anything but PENDING_DELETION). -/
theorem claim_C9_amended (c : Customer) (now : Nat)
    (h : c.status ≠ .pending_deletion) :
    ((Deletion.request_customer_deletion c now false).1.status = .active)
  ∧ ((Deletion.request_customer_deletion c now false).1.deletion_requested_at
      = none)
  ∧ ((Deletion.request_customer_deletion c now false).2 = .publish_failed)
  ∧ (c.status = .active →
      (Deletion.request_customer_deletion c now false).1.status = c.status) := by
  refine ⟨?_, ?_, ?_, ?_⟩ <;>
    simp [Deletion.request_customer_deletion, h]
  intro hc
  rw [hc]

/-- Witness for the amended C9 at a concrete ACTIVE customer. -/
theorem claim_C9_witness :
    ((Deletion.request_customer_deletion
        ⟨"C9", .active, none, [], none, false⟩ 3 false).1.status = .active)
  ∧ ((Deletion.request_customer_deletion
        ⟨"C9", .active, none, [], none, false⟩ 3 false).1.deletion_requested_at
      = none)
  ∧ ((Deletion.request_customer_deletion
        ⟨"C9", .active, none, [], none, false⟩ 3 false).2 = .publish_failed)
  ∧ ((⟨"C9", .active, none, [], none, false⟩ : Customer).status = .active →
      (Deletion.request_customer_deletion
        ⟨"C9", .active, none, [], none, false⟩ 3 false).1.status
      = (⟨"C9", .active, none, [], none, false⟩ : Customer).status) :=
  claim_C9_amended _ 3 (by decide)
